import Mathlib

/-!
Shallow embedding of the script VM prototype in src/src/lib.rs.

Modelling conventions:
  - Bytes are natural numbers; a byte sequence is a list of naturals.
  - A stack value mirrors Cow over byte slices: either borrowed (zero-copy
    reference into the instruction stream or a module constant) or owned
    (freshly computed bytes such as a digest).  Content equality ignores
    the storage tag, as Cow equality does.
  - The operand stack is a list with the head as the top.  The source uses
    a Vec whose last element is the top; push and pop act on that end, so
    the list-with-head-top representation is the same structure reversed.
  - Rust panics are modelled as explicit abort outcomes.  The source has
    three distinct abort sites: the unwrap inside op_dup, the engine call
    of the panic macro with a Script failed message on a handler error
    (note the error kind is discarded there by the wildcard Err pattern),
    and the engine call of the panic macro on an unregistered opcode.
  - The hash160 primitive is an external collaborator; the embedding takes
    it as a function parameter.
-/

namespace ScriptSketch

abbrev Byte := Nat
abbrev Bytes := List Nat

/-- Mirrors the Cow-based stack value: borrowed or owned byte sequence. -/
inductive StackValue where
  | borrowed (data : Bytes)
  | owned (data : Bytes)
deriving DecidableEq, Repr

/-- Content of a stack value; equality of contents is what the handlers compare. -/
def StackValue.bytes : StackValue → Bytes
  | .borrowed d => d
  | .owned d => d

/-- Mirrors type Stack of the source; head of the list is the top of the stack. -/
abbrev Stack := List StackValue

/-- Mirrors enum VMError of the source: only these two kinds exist. -/
inductive VMError where
  | EmptyStack
  | VerifyFailed
deriving DecidableEq, Repr

/-- Outcome of one handler call: Ok value, Err kind, or a Rust panic raised
inside the handler (only op_dup can panic, via unwrap on an empty stack). -/
inductive HandlerResult where
  | ok (v : StackValue)
  | err (e : VMError)
  | panicked
deriving DecidableEq, Repr

/-- Mirrors type OpHandler; the mutated stack is returned explicitly. -/
abbrev OpHandler := Stack → HandlerResult × Stack

/-- Mirrors const RET_NONE: an empty return that will not be pushed to the stack. -/
def RET_NONE : Bytes := []

/-- Mirrors const RET_TRUE: the canonical true sentinel, single byte one. -/
def RET_TRUE : Bytes := [1]

/-- Mirrors const RET_FALSE: the canonical false sentinel, single byte zero. -/
def RET_FALSE : Bytes := [0]

/-- Mirrors fn op_dup: reads the top via last().unwrap() — a panic when the
stack is empty — and returns an owned copy of it, leaving the stack intact. -/
def op_dup : OpHandler := fun stack =>
  match stack with
  | [] => (.panicked, [])
  | v :: rest => (.ok (.owned v.bytes), v :: rest)

/-- Mirrors fn op_hash160: pops the top, returns the owned digest of the
popped bytes, or Err EmptyStack when there was nothing to pop.  The external
hash function is the parameter. -/
def op_hash160 (hash : Bytes → Bytes) : OpHandler := fun stack =>
  match stack with
  | [] => (.err .EmptyStack, [])
  | tbh :: rest => (.ok (.owned (hash tbh.bytes)), rest)

/-- Mirrors fn op_equal: pops a then b; if either pop came back empty the
result is Err EmptyStack (both pops were already attempted, so a lone element
is consumed); otherwise the result is the canonical true sentinel when the
contents agree and the canonical false sentinel when they do not.  The
sentinel is returned as a borrowed value, as the source converts a reference
to the module constant. -/
def op_equal : OpHandler := fun stack =>
  match stack with
  | [] => (.err .EmptyStack, [])
  | [_] => (.err .EmptyStack, [])
  | a :: b :: rest =>
    if a.bytes = b.bytes then (.ok (.borrowed RET_TRUE), rest)
    else (.ok (.borrowed RET_FALSE), rest)

/-- Mirrors fn op_verify: pops the top; Err EmptyStack when there was nothing
to pop; returns the empty sentinel (which the engine will not push) when the
popped content equals canonical true, and Err VerifyFailed otherwise. -/
def op_verify : OpHandler := fun stack =>
  match stack with
  | [] => (.err .EmptyStack, [])
  | v :: rest =>
    if v.bytes = RET_TRUE then (.ok (.borrowed RET_NONE), rest)
    else (.err .VerifyFailed, rest)

/-- Mirrors fn op_checksig: the stub unconditionally returns canonical true
and touches nothing on the stack. -/
def op_checksig : OpHandler := fun stack => (.ok (.borrowed RET_TRUE), stack)

/-- Mirrors the decoded instruction enum consumed by the engine loop:
PushBytes, Op, or a decode error (Malformed). -/
inductive Instr where
  | dataPush (data : Bytes)
  | op (b : Byte)
  | malformed
deriving DecidableEq, Repr

/-- Mirrors the words table of ScriptVM: opcode byte to handler chain. -/
abbrev Registry := Byte → Option (List OpHandler)

/-- Outcome of running one handler chain (the inner for loop of the engine). -/
inductive ChainOutcome where
  | ok (s : Stack)
  | scriptFailed (s : Stack)
  | handlerPanic (s : Stack)
deriving Repr

/-- Mirrors the inner for loop over a handler chain: each Ok value is pushed
only when its length is positive; the first Err aborts via the panic macro
with a Script failed message — the wildcard Err pattern discards the kind —
and a panic inside a handler propagates. -/
def runChain : List OpHandler → Stack → ChainOutcome
  | [], s => .ok s
  | f :: fs, s =>
    match f s with
    | (.ok v, s') => if v.bytes.length > 0 then runChain fs (v :: s') else runChain fs s'
    | (.err _, s') => .scriptFailed s'
    | (.panicked, s') => .handlerPanic s'

/-- Terminal outcome of one engine run.  The source returns normally only
when the loop finishes; the three other constructors are the three distinct
process aborts (panics), each carrying the stack at the moment of the abort
for reasoning purposes (the real process loses it). -/
inductive RunResult where
  | success (s : Stack)
  | panicScriptFailed (s : Stack)
  | panicUnsupportedOpcode (b : Byte) (s : Stack)
  | panicHandler (s : Stack)
deriving DecidableEq, Repr

/-- True when the outcome is a process abort (a panic) rather than a normal
return to the caller. -/
def RunResult.aborted : RunResult → Bool
  | .success _ => false
  | _ => true

/-- Mirrors the engine loop of verify_p2pkh_script: DataPush pushes a borrowed
value unconditionally; Op looks the byte up in the words table, running the
chain on a hit and aborting with the unsupported-opcode panic on a miss; a
Malformed instruction is only logged and execution continues. -/
def runInsns (reg : Registry) : List Instr → Stack → RunResult
  | [], s => .success s
  | .dataPush d :: rest, s => runInsns reg rest (.borrowed d :: s)
  | .op b :: rest, s =>
    match reg b with
    | some chain =>
      match runChain chain s with
      | .ok s' => runInsns reg rest s'
      | .scriptFailed s' => .panicScriptFailed s'
      | .handlerPanic s' => .panicHandler s'
    | none => .panicUnsupportedOpcode b s
  | .malformed :: rest, s => runInsns reg rest s

/-- One engine session: fresh empty stack, then the loop. -/
def run (reg : Registry) (prog : List Instr) : RunResult := runInsns reg prog []

/-- Opcode byte of OP_DUP. -/
def OP_DUP : Byte := 118

/-- Opcode byte of OP_HASH160. -/
def OP_HASH160 : Byte := 169

/-- Opcode byte of OP_EQUALVERIFY. -/
def OP_EQUALVERIFY : Byte := 136

/-- Opcode byte of OP_CHECKSIG. -/
def OP_CHECKSIG : Byte := 172

/-- Opcode byte of OP_EQUAL. -/
def OP_EQUAL : Byte := 135

/-- Opcode byte of OP_VERIFY. -/
def OP_VERIFY : Byte := 105

/-- Mirrors the words table built by verify_p2pkh_script: DUP, HASH160, the
EQUALVERIFY superword as the two-handler chain, and CHECKSIG. -/
def p2pkhWords (hash : Bytes → Bytes) : Registry := fun b =>
  if b = OP_DUP then some [op_dup]
  else if b = OP_HASH160 then some [op_hash160 hash]
  else if b = OP_EQUALVERIFY then some [op_equal, op_verify]
  else if b = OP_CHECKSIG then some [op_checksig]
  else none

/-- Registry of the end-to-end scenario as the spec words it: EQUAL and
VERIFY bound separately (the source components support this configuration;
the words table is caller-supplied). -/
def splitWords (hash : Bytes → Bytes) : Registry := fun b =>
  if b = OP_DUP then some [op_dup]
  else if b = OP_HASH160 then some [op_hash160 hash]
  else if b = OP_EQUAL then some [op_equal]
  else if b = OP_VERIFY then some [op_verify]
  else if b = OP_CHECKSIG then some [op_checksig]
  else none

/-- Instruction sequence of the end-to-end P2PKH-style scenario with split
EQUAL and VERIFY opcodes. -/
def p2pkhScript (sig pubkey pkh : Bytes) : List Instr :=
  [.dataPush sig, .dataPush pubkey, .op OP_DUP, .op OP_HASH160,
   .dataPush pkh, .op OP_EQUAL, .op OP_VERIFY, .op OP_CHECKSIG]

/-- A run of a successful prefix followed by more instructions continues from
the stack the prefix produced. -/
lemma runInsns_append_of_success (reg : Registry) (xs ys : List Instr)
    (s s' : Stack) (h : runInsns reg xs s = RunResult.success s') :
    runInsns reg (xs ++ ys) s = runInsns reg ys s' := by
  induction xs generalizing s with
  | nil =>
    simp only [runInsns] at h
    cases h
    rfl
  | cons i rest ih =>
    cases i with
    | dataPush d =>
      simp only [runInsns, List.cons_append] at h ⊢
      exact ih _ h
    | op b =>
      simp only [runInsns, List.cons_append] at h ⊢
      cases hb : reg b with
      | none => rw [hb] at h; simp at h
      | some chain =>
        rw [hb] at h
        dsimp only at h ⊢
        cases hc : runChain chain s with
        | ok s1 =>
          rw [hc] at h
          dsimp only at h ⊢
          exact ih _ h
        | scriptFailed s1 => rw [hc] at h; simp at h
        | handlerPanic s1 => rw [hc] at h; simp at h
    | malformed =>
      simp only [runInsns, List.cons_append] at h ⊢
      exact ih _ h

/-- C1: on a non-empty stack the Duplicate handler succeeds without popping
and returns an owned copy of the top value; but on an empty stack it does
not return Err EmptyStack — the unwrap inside op_dup panics.  This theorem
evaluates the handler at the failing input (empty stack) and records the
correct non-empty behaviour. -/
theorem op_dup_empty_stack_panics :
    op_dup [] = (HandlerResult.panicked, []) ∧
    ∀ (v : StackValue) (s : Stack),
      op_dup (v :: s) = (HandlerResult.ok (StackValue.owned v.bytes), v :: s) :=
  ⟨rfl, fun _ _ => rfl⟩

/-- C4: the Verify handler pops canonical true and the engine pushes nothing
(the stack shrinks by exactly one); any other top value yields Err
VerifyFailed with exactly the single pop consumed; the empty stack yields
Err EmptyStack. -/
theorem op_verify_spec (v : StackValue) (s : Stack) :
    (v.bytes = RET_TRUE →
      op_verify (v :: s) = (HandlerResult.ok (StackValue.borrowed RET_NONE), s) ∧
      runChain [op_verify] (v :: s) = ChainOutcome.ok s) ∧
    (v.bytes ≠ RET_TRUE →
      op_verify (v :: s) = (HandlerResult.err VMError.VerifyFailed, s)) ∧
    op_verify [] = (HandlerResult.err VMError.EmptyStack, []) := by
  refine ⟨fun h => ⟨?_, ?_⟩, fun h => ?_, rfl⟩
  · simp [op_verify, h]
  · have hv : op_verify (v :: s) = (HandlerResult.ok (StackValue.borrowed RET_NONE), s) := by
      dsimp only [op_verify]
      rw [if_pos h]
    simp [runChain, hv, RET_NONE, StackValue.bytes]
  · simp [op_verify, h]

/-- Witness for C4 at concrete inputs: canonical true on top shrinks the
stack by one, canonical false on top fails. -/
theorem op_verify_spec_witness :
    runChain [op_verify] [StackValue.borrowed RET_TRUE] = ChainOutcome.ok [] ∧
    op_verify [StackValue.owned RET_FALSE] = (HandlerResult.err VMError.VerifyFailed, []) :=
  ⟨((op_verify_spec (StackValue.borrowed RET_TRUE) []).1 rfl).2,
   (op_verify_spec (StackValue.owned RET_FALSE) []).2.1 (by decide)⟩

/-- C5: pushing a then b and applying Equal pops both and leaves canonical
true exactly when the contents agree, canonical false otherwise, independent
of the borrowed or owned storage of either value (the result depends only on
the byte contents); with fewer than two elements the result is Err
EmptyStack whichever pop was the missing one. -/
theorem op_equal_spec (a b : StackValue) (s : Stack) :
    runChain [op_equal] (b :: a :: s) =
      ChainOutcome.ok
        (StackValue.borrowed (if a.bytes = b.bytes then RET_TRUE else RET_FALSE) :: s) ∧
    op_equal [] = (HandlerResult.err VMError.EmptyStack, []) ∧
    ∀ (v : StackValue), op_equal [v] = (HandlerResult.err VMError.EmptyStack, []) := by
  refine ⟨?_, rfl, fun _ => rfl⟩
  by_cases h : a.bytes = b.bytes
  · have he : op_equal (b :: a :: s) = (HandlerResult.ok (StackValue.borrowed RET_TRUE), s) := by
      dsimp only [op_equal]
      rw [if_pos h.symm]
    rw [if_pos h]
    simp [runChain, he, RET_TRUE, StackValue.bytes]
  · have he : op_equal (b :: a :: s) = (HandlerResult.ok (StackValue.borrowed RET_FALSE), s) := by
      dsimp only [op_equal]
      rw [if_neg (fun hba => h hba.symm)]
    rw [if_neg h]
    simp [runChain, he, RET_FALSE, StackValue.bytes]

/-- C6: the Hash handler pops exactly one element and the engine pushes
exactly one owned element equal to the external digest of the popped bytes,
leaving the overall length unchanged; the empty stack yields Err EmptyStack.
The hypothesis records the collaborator contract that digests are non-empty
(the real hash160 digest has fixed length twenty). -/
theorem op_hash160_spec (hash : Bytes → Bytes) (v : StackValue) (s : Stack)
    (h : hash v.bytes ≠ []) :
    op_hash160 hash (v :: s) = (HandlerResult.ok (StackValue.owned (hash v.bytes)), s) ∧
    runChain [op_hash160 hash] (v :: s) = ChainOutcome.ok (StackValue.owned (hash v.bytes) :: s) ∧
    (StackValue.owned (hash v.bytes) :: s).length = (v :: s).length ∧
    op_hash160 hash [] = (HandlerResult.err VMError.EmptyStack, []) := by
  refine ⟨rfl, ?_, rfl, rfl⟩
  have hl : 0 < (hash v.bytes).length := List.length_pos.mpr h
  have hv : op_hash160 hash (v :: s) = (HandlerResult.ok (StackValue.owned (hash v.bytes)), s) := rfl
  have hb : (StackValue.owned (hash v.bytes)).bytes = hash v.bytes := rfl
  simp [runChain, hv, hb, hl, h]

/-- Witness for C6 at a concrete digest function and stack. -/
theorem op_hash160_spec_witness :
    runChain [op_hash160 (fun _ => [0])] [StackValue.borrowed [1]] =
      ChainOutcome.ok [StackValue.owned [0]] :=
  ((op_hash160_spec (fun _ => [0]) (StackValue.borrowed [1]) [] (by decide)).2).1

/-- C8: a Malformed instruction is only logged; the engine stays in its
running loop with the stack unchanged and continues with the next
instruction. -/
theorem malformed_skipped (reg : Registry) (rest : List Instr) (s : Stack) :
    runInsns reg (Instr.malformed :: rest) s = runInsns reg rest s := rfl

/-- C9: the signature-check stub always succeeds, pops nothing, leaves every
existing element in place, and the engine pushes exactly one new element,
canonical true, so the length grows by exactly one. -/
theorem op_checksig_pushes_true (s : Stack) :
    op_checksig s = (HandlerResult.ok (StackValue.borrowed RET_TRUE), s) ∧
    runChain [op_checksig] s = ChainOutcome.ok (StackValue.borrowed RET_TRUE :: s) ∧
    (StackValue.borrowed RET_TRUE :: s).length = s.length + 1 := by
  refine ⟨rfl, ?_, rfl⟩
  simp [runChain, op_checksig, StackValue.bytes, RET_TRUE]

/-- C10: for a fixed registry and instruction sequence, any two runs from
the empty stack produce the same terminal outcome and final stack; the
engine is a pure function of its inputs with no hidden state. -/
theorem run_deterministic (reg : Registry) (prog : List Instr) (r1 r2 : RunResult)
    (h1 : r1 = run reg prog) (h2 : r2 = run reg prog) : r1 = r2 :=
  h1.trans h2.symm

/-- Witness for C10 at a concrete registry and program. -/
theorem run_deterministic_witness :
    run (p2pkhWords (fun _ => [0])) [Instr.dataPush [2]] =
      run (p2pkhWords (fun _ => [0])) [Instr.dataPush [2]] :=
  run_deterministic (p2pkhWords (fun _ => [0])) [Instr.dataPush [2]] _ _ rfl rfl

/-- C2 counterexample: on an unregistered opcode the engine does not return
a halted-failure state carrying an unsupported-opcode error kind (no such
state or kind exists in the source; VMError has only EmptyStack and
VerifyFailed) — it aborts the process through the unsupported-opcode panic. -/
theorem unsupported_opcode_aborts_cex :
    run (p2pkhWords (fun _ => [0])) [Instr.op 0] = RunResult.panicUnsupportedOpcode 0 [] ∧
    (run (p2pkhWords (fun _ => [0])) [Instr.op 0]).aborted = true :=
  ⟨rfl, rfl⟩

/-- C2 amended: executing an Op whose byte has no registry entry makes the
engine abort immediately through the distinct unsupported-opcode panic
(never the script-failed abort used for handler errors); no instruction
after it is processed and the recorded stack is exactly the one produced by
the instructions strictly before it. -/
theorem unsupported_opcode_fail_fast (reg : Registry) (pre suf : List Instr)
    (b : Byte) (s : Stack)
    (h1 : runInsns reg pre [] = RunResult.success s) (h2 : reg b = none) :
    run reg (pre ++ Instr.op b :: suf) = RunResult.panicUnsupportedOpcode b s ∧
    ∀ t : Stack, RunResult.panicUnsupportedOpcode b s ≠ RunResult.panicScriptFailed t := by
  refine ⟨?_, fun t => by simp⟩
  unfold run
  rw [runInsns_append_of_success reg pre (Instr.op b :: suf) [] s h1]
  simp [runInsns, h2]

/-- Witness for the amended C2: a data push, then an unregistered opcode,
then a trailing instruction that is never reached. -/
theorem unsupported_opcode_fail_fast_witness :
    runInsns (p2pkhWords (fun _ => [0])) [Instr.dataPush [2]] [] =
      RunResult.success [StackValue.borrowed [2]] ∧
    run (p2pkhWords (fun _ => [0]))
        ([Instr.dataPush [2]] ++ Instr.op 0 :: [Instr.dataPush [3]]) =
      RunResult.panicUnsupportedOpcode 0 [StackValue.borrowed [2]] :=
  ⟨rfl,
   (unsupported_opcode_fail_fast (p2pkhWords (fun _ => [0])) [Instr.dataPush [2]]
      [Instr.dataPush [3]] 0 [StackValue.borrowed [2]] rfl rfl).1⟩

/-- C3 counterexample: when a handler fails (here Hash on an empty stack,
which returns Err EmptyStack) the engine does not return a terminal state
carrying that error kind — it aborts the process through the script-failed
panic, and the wildcard Err pattern has already discarded the kind. -/
theorem handler_failure_aborts_cex :
    run (p2pkhWords (fun _ => [0])) [Instr.op OP_HASH160] = RunResult.panicScriptFailed [] ∧
    (run (p2pkhWords (fun _ => [0])) [Instr.op OP_HASH160]).aborted = true :=
  ⟨rfl, rfl⟩

/-- C3 amended: when a handler in a chain fails, the engine aborts
immediately through the script-failed panic, discarding the specific error
kind; the remaining handlers of the chain and all remaining instructions are
never run (the conclusion does not depend on the error kind e, the rest of
the chain fs, or the suffix suf). -/
theorem handler_failure_fail_fast (reg : Registry) (pre suf : List Instr) (b : Byte)
    (f : OpHandler) (fs : List OpHandler) (s s' : Stack) (e : VMError)
    (h1 : runInsns reg pre [] = RunResult.success s)
    (h2 : reg b = some (f :: fs))
    (h3 : f s = (HandlerResult.err e, s')) :
    run reg (pre ++ Instr.op b :: suf) = RunResult.panicScriptFailed s' := by
  unfold run
  rw [runInsns_append_of_success reg pre (Instr.op b :: suf) [] s h1]
  simp [runInsns, runChain, h2, h3]

/-- Witness for the amended C3: Hash on an empty stack fails with
EmptyStack and the engine aborts before a later instruction runs. -/
theorem handler_failure_fail_fast_witness :
    run (p2pkhWords (fun _ => [0])) ([] ++ Instr.op OP_HASH160 :: [Instr.op OP_DUP]) =
      RunResult.panicScriptFailed [] :=
  handler_failure_fail_fast (p2pkhWords (fun _ => [0])) [] [Instr.op OP_DUP] OP_HASH160
    (op_hash160 (fun _ => [0])) [] [] [] VMError.EmptyStack rfl rfl rfl

/-- C7 counterexample: with matching key hash the scenario does finish the
loop normally, but the final stack is not the single canonical true — the
checksig stub pushes true without popping, so the public key and signature
are still below it. -/
theorem p2pkh_final_stack_cex :
    run (splitWords (fun x => if x = [7] then [9] else [0])) (p2pkhScript [5] [7] [9]) =
      RunResult.success
        [StackValue.borrowed [1], StackValue.borrowed [7], StackValue.borrowed [5]] ∧
    run (splitWords (fun x => if x = [7] then [9] else [0])) (p2pkhScript [5] [7] [9]) ≠
      RunResult.success [StackValue.borrowed RET_TRUE] := by
  constructor
  · rfl
  · decide

/-- C7 amended: with hash pubkey equal to pkh the run finishes the loop
normally with final stack canonical true on top of the untouched pubkey and
sig (the stub pushes without popping); with hash pubkey different from pkh
the engine aborts through the script-failed panic at the Verify step, with
Equal already consumed and the checksig stub never run.  The hypotheses
record that the pushed public key and the digest are non-empty (digests
have fixed positive length). -/
theorem p2pkh_script_runs (hash : Bytes → Bytes) (sig pubkey pkh : Bytes)
    (hpk : pubkey ≠ []) (hh : hash pubkey ≠ []) :
    (hash pubkey = pkh →
      run (splitWords hash) (p2pkhScript sig pubkey pkh) =
        RunResult.success
          [StackValue.borrowed RET_TRUE, StackValue.borrowed pubkey, StackValue.borrowed sig]) ∧
    (hash pubkey ≠ pkh →
      run (splitWords hash) (p2pkhScript sig pubkey pkh) =
        RunResult.panicScriptFailed [StackValue.borrowed pubkey, StackValue.borrowed sig]) := by
  have hpl : 0 < pubkey.length := List.length_pos.mpr hpk
  have hhl : 0 < (hash pubkey).length := List.length_pos.mpr hh
  have hreg_dup : splitWords hash OP_DUP = some [op_dup] := rfl
  have hreg_hash : splitWords hash OP_HASH160 = some [op_hash160 hash] := rfl
  have hreg_eq : splitWords hash OP_EQUAL = some [op_equal] := rfl
  have hreg_ver : splitWords hash OP_VERIFY = some [op_verify] := rfl
  have hreg_cs : splitWords hash OP_CHECKSIG = some [op_checksig] := rfl
  constructor
  · intro heq
    subst heq
    simp [run, p2pkhScript, runInsns, hreg_dup, hreg_hash, hreg_eq, hreg_ver, hreg_cs,
      runChain, op_dup, op_hash160, op_equal, op_verify, op_checksig,
      StackValue.bytes, RET_TRUE, RET_FALSE, RET_NONE, hpl, hhl]
  · intro hne
    have hne' : pkh ≠ hash pubkey := fun hx => hne hx.symm
    simp [run, p2pkhScript, runInsns, hreg_dup, hreg_hash, hreg_eq, hreg_ver, hreg_cs,
      runChain, op_dup, op_hash160, op_equal, op_verify, op_checksig,
      StackValue.bytes, RET_TRUE, RET_FALSE, RET_NONE, hpl, hhl, hne']

/-- Witness for the amended C7 at concrete data. -/
theorem p2pkh_script_runs_witness :
    run (splitWords (fun _ => [9])) (p2pkhScript [] [7] [9]) =
      RunResult.success
        [StackValue.borrowed RET_TRUE, StackValue.borrowed [7], StackValue.borrowed []] :=
  (p2pkh_script_runs (fun _ => [9]) [] [7] [9] (by decide) (by decide)).1 rfl

end ScriptSketch
